import Mathlib

/-!
Shallow embedding of the OllyTracker MFA trust engine
(`src/js/auth-enhanced.js`): TOTP generation and verification,
device-trust windows with weekend carryover, the login rate limiter,
and the login gate that composes them.

Conventions of the embedding:
* JS strings are Lean `String`s; `charCodeAt` is the code point of the
  character (all relevant characters are ASCII, where the two agree).
* Times are `Int` milliseconds on the local clock, assuming a
  fixed-offset timezone (no DST), since the source mixes `Date.now()`
  epoch arithmetic with local-calendar `getDay`/`getHours` reads.
  The JS epoch day (day index 0) is a Thursday.
* JS bitwise operations on the hash bytes are rendered as `%` and `*`
  arithmetic on `Nat`: all intermediate values are provably below
  2 to the 31st, where signed 32-bit JS integers and `Nat` agree, and
  the OR of the four byte fields is a sum because the fields occupy
  disjoint bit ranges.
-/

namespace OllyTracker

/-- The base64 output alphabet used by `btoa`. -/
def b64chars : List Char :=
  "ABCDEFGHIJKLMNOPQRSTUVWXYZabcdefghijklmnopqrstuvwxyz0123456789+/".data

/-- Character of the base64 alphabet at sextet value `n`. -/
def b64char (n : Nat) : Char := b64chars.getD (n % 64) 'A'

/-- Base64 encoding of a byte list, as performed by the browser `btoa`
primitive on a Latin-1 string (`% 256` normalises each input to a byte;
the source only ever feeds ASCII). Three bytes become four sextet
characters; a trailing group of one or two bytes is padded. -/
def b64encode : List Nat → List Char
  | [] => []
  | [a] => [b64char (a % 256 / 4), b64char (a % 4 * 16), '=', '=']
  | [a, b] => [b64char (a % 256 / 4), b64char (a % 4 * 16 + b % 256 / 16),
               b64char (b % 16 * 4), '=']
  | a :: b :: c :: rest =>
      b64char (a % 256 / 4) :: b64char (a % 4 * 16 + b % 256 / 16) ::
      b64char (b % 16 * 4 + c % 256 / 64) :: b64char (c % 64) :: b64encode rest

/-- `String.charCodeAt` for in-range ASCII indices (out-of-range reads,
which never occur on the paths verified here, return 0). -/
def charCodeAt (s : String) (i : Nat) : Nat := (s.data.getD i (Char.ofNat 0)).toNat

/-- Decimal digits of a natural number, most significant first; `fuel`
bounds the recursion and any `fuel ≥ n` gives the exact digits. -/
def natDigitsAux : Nat → Nat → List Char
  | 0, _ => []
  | fuel + 1, n =>
      if n = 0 then [] else natDigitsAux fuel (n / 10) ++ [Nat.digitChar (n % 10)]

/-- JS `Number.prototype.toString` on a natural number. -/
def natToString (n : Nat) : String :=
  if n = 0 then "0" else String.mk (natDigitsAux n n)

/-- JS `Number.prototype.toString` on an integer. -/
def intToString : Int → String
  | Int.ofNat n => natToString n
  | Int.negSucc n => String.mk ('-' :: (natToString (n + 1)).data)

/-- JS `s.padStart(6, '0')` from `generateTOTPToken` (src/js/auth-enhanced.js:73). -/
def padStart6 (s : String) : String :=
  String.mk (List.replicate (6 - s.data.length) '0' ++ s.data)

/-- `simpleHMAC` (src/js/auth-enhanced.js:76-79):
`btoa(key + message).slice(0, 20)`. -/
def simpleHMAC (key message : String) : String :=
  String.mk ((b64encode (((key ++ message).data).map Char.toNat)).take 20)

/-- The truncation offset of `generateTOTPToken`
(src/js/auth-enhanced.js:68): low nibble of the hash's last character. -/
def totpOffset (hash : String) : Nat := charCodeAt hash (hash.length - 1) % 16

/-- The 31-bit dynamic truncation value of `generateTOTPToken`
(src/js/auth-enhanced.js:69-72): four hash characters at the offset,
high bit of the first masked, packed big-endian. -/
def totpCode (hash : String) : Nat :=
  charCodeAt hash (totpOffset hash) % 128 * 16777216 +
  charCodeAt hash (totpOffset hash + 1) % 256 * 65536 +
  charCodeAt hash (totpOffset hash + 2) % 256 * 256 +
  charCodeAt hash (totpOffset hash + 3) % 256

/-- `generateTOTPToken` (src/js/auth-enhanced.js:65-74). -/
def generateTOTPToken (secret : String) (timeStep : Int) : String :=
  padStart6 (natToString (totpCode (simpleHMAC secret (intToString timeStep)) % 1000000))

/-- The 30-second TOTP time step of a clock reading in milliseconds
(src/js/auth-enhanced.js:56): `Math.floor(now / 30000)`. -/
def timeStepOf (now : Int) : Int := now.fdiv 30000

/-- `verifyTOTP` (src/js/auth-enhanced.js:54-63): the submitted token is
compared against the generated tokens of the previous, current and next
time step. -/
def verifyTOTP (secret token : String) (now : Int) : Bool :=
  decide (generateTOTPToken secret (timeStepOf now - 1) = token) ||
  decide (generateTOTPToken secret (timeStepOf now) = token) ||
  decide (generateTOTPToken secret (timeStepOf now + 1) = token)

/-- The secret alphabet of `generateTOTPSecret`
(src/js/auth-enhanced.js:38): 32 base32 symbols; generated secrets are
32 characters drawn from it. -/
def secretAlphabet : List Char := "ABCDEFGHIJKLMNOPQRSTUVWXYZ234567".data

/-- A concrete secret of the shape produced by `generateTOTPSecret`. -/
def sampleSecret : String := "ABCDEFGHIJKLMNOPQRSTUVWXYZ234567"

/-! Device trust (src/js/auth-enhanced.js:100-138). -/

/-- Milliseconds per hour. -/
def msPerHour : Int := 3600000

/-- Milliseconds per day. -/
def msPerDay : Int := 86400000

/-- JS `Date.prototype.getDay` on a local-clock millisecond reading:
0 = Sunday, ..., 6 = Saturday; the epoch day is a Thursday (4). -/
def getDay (t : Int) : Int := (t.fdiv msPerDay + 4) % 7

/-- JS `Date.prototype.getHours` on a local-clock millisecond reading. -/
def getHours (t : Int) : Int := t.fdiv msPerHour % 24

/-- Local midnight of the day containing `t` (the net effect of the
source's `setDate` followed by `setHours(0, 0, 0, 0)`). -/
def floorDay (t : Int) : Int := t.fdiv msPerDay * msPerDay

/-- `isWeekendCarryover` (src/js/auth-enhanced.js:100-110): true exactly
when the current moment is a Monday before 08:00 local time. -/
def isWeekendCarryover (now : Int) : Bool :=
  decide (getDay now = 1) && decide (getHours now < 8)

/-- `shouldTrustDevice` (src/js/auth-enhanced.js:112-138). `lastTrusted`
is the stored `lastVerifiedAt` timestamp, if any. The source's
`(now - trusted) / (1000*60*60) <= 24` float comparison is rendered as
the exact integer comparison `now - trusted ≤ 24 * msPerHour`: division
by the positive constant is strictly monotone and, at the millisecond
magnitudes a clock produces, double rounding cannot move a quotient
across the integer bound 24. The carryover branch rebuilds the Friday
midnight at or before the trust timestamp
(`setDate(getDate() - (getDay() + 2) % 7)` then midnight) and the
following Monday 08:00, and trusts when the timestamp is at or after
that Friday and `now` is at or before that Monday morning. -/
def shouldTrustDevice : Option Int → Int → Bool
  | none, _ => false
  | some trusted, now =>
    if now - trusted ≤ 24 * msPerHour then true
    else if isWeekendCarryover now then
      decide (floorDay trusted - (getDay trusted + 2) % 7 * msPerDay ≤ trusted) &&
      decide (now ≤ floorDay trusted - (getDay trusted + 2) % 7 * msPerDay
                    + 3 * msPerDay + 8 * msPerHour)
    else false

/-! Rate limiting (src/js/auth-enhanced.js:141-156). The per-key attempt
log is the list of recorded attempt timestamps for that key. -/

/-- The 15-minute rate-limit window in milliseconds
(src/js/auth-enhanced.js:147). -/
def rateLimitWindowMs : Int := 900000

/-- `rateLimiter.isBlocked` (src/js/auth-enhanced.js:144-149): at least
5 recorded attempts with `now - time < 15 minutes`. -/
def isBlocked (attempts : List Int) (now : Int) : Bool :=
  decide (5 ≤ (attempts.filter (fun time => decide (now - time < rateLimitWindowMs))).length)

/-- `rateLimiter.recordAttempt` (src/js/auth-enhanced.js:151-155):
appends the current time to the key's attempt log. -/
def recordAttempt (attempts : List Int) (now : Int) : List Int := attempts ++ [now]

/-! Trusted-device maps. A user's `trusted_devices` metadata is a JS
object keyed by device fingerprint, modelled as `String → Option Int`. -/

/-- The login-path trust update (src/js/auth-enhanced.js:369-370):
`{ ...trustedDevices, [deviceId]: now }` — overwrite one key, keep the
rest. -/
def updateTrusted (m : String → Option Int) (deviceId : String) (now : Int) :
    String → Option Int :=
  fun k => if k = deviceId then some now else m k

/-- The `trusted_devices` map a fresh registration starts from
(src/js/auth-enhanced.js:430): the empty object. -/
def signUpTrustedDevices : String → Option Int := fun _ => none

/-- The enrollment-path trust update (src/js/auth-enhanced.js:461-463):
a fresh object holding only the enrolling device. -/
def enrollTrusted (deviceId : String) (now : Int) : String → Option Int :=
  fun k => if k = deviceId then some now else none

/-! The login gate (src/js/auth-enhanced.js:298-389), as the decision
function of one login attempt: rate-limit check first, then MFA
configuration, then device trust, then code verification. Password
authentication itself belongs to the external identity provider and is
out of scope. -/

/-- The decision of one login attempt. -/
inductive Decision
  | blocked
  | allowed
  | allowedTrusted
  | challengeRequired
  | invalidCodeInput
  | challengeRetry
  deriving DecidableEq

/-- Outcome of one login attempt: the decision, the user's updated
`trusted_devices` map and the identity's updated attempt log. -/
structure GateResult where
  decision : Decision
  trusted : String → Option Int
  attempts : List Int

/-- The decision logic of `handleLogin` (src/js/auth-enhanced.js:310-382)
for a password-authenticated attempt: if the identity is rate-limited,
stop (line 310); with no enrolled secret, pass through (line 338); on a
trusted device, pass through (line 349); otherwise require a code; a
submitted code of the wrong length is rejected without verification
(line 362); a correct code records trust for the device (lines 367-374);
a wrong code records a failed attempt (line 379). -/
def handleLoginGate (attempts : List Int) (trusted : String → Option Int)
    (deviceId : String) (secret : Option String) (code : Option String)
    (now : Int) : GateResult :=
  if isBlocked attempts now then ⟨Decision.blocked, trusted, attempts⟩
  else
    match secret with
    | none => ⟨Decision.allowed, trusted, attempts⟩
    | some s =>
      if shouldTrustDevice (trusted deviceId) now then ⟨Decision.allowed, trusted, attempts⟩
      else
        match code with
        | none => ⟨Decision.challengeRequired, trusted, attempts⟩
        | some c =>
          if c.length ≠ 6 then ⟨Decision.invalidCodeInput, trusted, attempts⟩
          else if verifyTOTP s c now then
            ⟨Decision.allowedTrusted, updateTrusted trusted deviceId now, attempts⟩
          else
            ⟨Decision.challengeRetry, trusted, recordAttempt attempts now⟩

/-! Spec-side model for claim C3. -/

/-- Modelled from the spec: the number of recorded attempts whose
timestamp lies within the closed interval from `now - 15min` to `now`,
the count the spec's `isBlocked` contract compares against 5. -/
def specClosedWindowCount (attempts : List Int) (now : Int) : Nat :=
  (attempts.filter (fun t => decide (now - rateLimitWindowMs ≤ t) && decide (t ≤ now))).length

/-! Concrete timestamps for claim C5: day index 0 of the local clock is
a Thursday, so day 1 is a Friday and day 4 the following Monday. -/

/-- A Friday 18:00 local-clock instant. -/
def fri1800 : Int := msPerDay + 18 * msPerHour

/-- The following Monday 07:59 local-clock instant. -/
def mon0759 : Int := 4 * msPerDay + 7 * msPerHour + 59 * 60000

/-- The following Monday 08:01 local-clock instant. -/
def mon0801 : Int := 4 * msPerDay + 8 * msPerHour + 60000

/-- An attempt log with five failures recorded within the ten minutes
before clock reading 600000 (the C4 scenario). -/
def blockedAttempts : List Int := [0, 100000, 200000, 300000, 400000]

/-! Claim theorems. -/

/-- Claim C1 (code_bug evaluation): a code generated at T = 100000 ms
still verifies at T + 29s and T − 29s, as the claim states, but it ALSO
verifies at T + 61s, contradicting the claim: `simpleHMAC` keeps only
the first 20 base64 characters — the first 15 bytes of
`secret + timeStep` — so with a 32-character secret the time step never
reaches the hash and every time step yields the same token. -/
theorem c1_drift_tolerance_eval :
    verifyTOTP sampleSecret (generateTOTPToken sampleSecret (timeStepOf 100000)) 129000 = true ∧
    verifyTOTP sampleSecret (generateTOTPToken sampleSecret (timeStepOf 100000)) 71000 = true ∧
    verifyTOTP sampleSecret (generateTOTPToken sampleSecret (timeStepOf 100000)) 161000 = true := by
  decide

/-- Claim C3 (counterexample): five attempts recorded exactly 15 minutes
before `now` lie inside the spec's closed window `[now - 15min, now]`,
so the claim says the key is blocked, yet `isBlocked` is false — its
filter keeps only attempts with `now - time` strictly below 15
minutes. -/
theorem c3_closed_window_counterexample :
    5 ≤ specClosedWindowCount (List.replicate 5 0) 900000 ∧
    isBlocked (List.replicate 5 0) 900000 = false := by
  decide

/-- Claim C3 (amended): `isBlocked(key, now)` is true if and only if at
least 5 recorded attempts have a timestamp `t` with `now < t + 15min`,
i.e. strictly less than 15 minutes before `now`; an attempt exactly 15
minutes old (or older) no longer counts. -/
theorem c3_strict_window_iff (attempts : List Int) (now : Int) :
    isBlocked attempts now = true ↔
    5 ≤ (attempts.filter (fun t => decide (now < t + rateLimitWindowMs))).length := by
  unfold isBlocked
  rw [show (fun time : Int => decide (now - time < rateLimitWindowMs)) =
        (fun t : Int => decide (now < t + rateLimitWindowMs)) from
    funext fun t => by rw [decide_eq_decide]; unfold rateLimitWindowMs; omega]
  simp

/-- Claim C4: whenever the rate limiter blocks the identity, the gate
decides `blocked` before anything else happens — for every enrollment
state, device, and submitted code (correct or not), the trusted-device
map and the attempt log are returned unchanged. -/
theorem c4_blocked_decision_final (attempts : List Int) (trusted : String → Option Int)
    (deviceId : String) (secret : Option String) (code : Option String) (now : Int)
    (h : isBlocked attempts now = true) :
    handleLoginGate attempts trusted deviceId secret code now =
      ⟨Decision.blocked, trusted, attempts⟩ := by
  simp [handleLoginGate, h]

/-- Claim C4 (witness): an enrolled identity on an untrusted device with
five wrong codes recorded within ten minutes is blocked on the next
attempt even though the submitted code is the correct one for the
current time step. -/
theorem c4_blocked_decision_final_witness :
    handleLoginGate blockedAttempts (fun _ => none) "device-1" (some sampleSecret)
      (some (generateTOTPToken sampleSecret (timeStepOf 600000))) 600000 =
      ⟨Decision.blocked, (fun _ => none), blockedAttempts⟩ :=
  c4_blocked_decision_final blockedAttempts (fun _ => none) "device-1" (some sampleSecret)
    (some (generateTOTPToken sampleSecret (timeStepOf 600000))) 600000 (by decide)

/-- Claim C5: a device last verified Friday 18:00 is still trusted on
Monday 07:59 but not on Monday 08:01; and at any current moment that is
not a Monday before 08:00 local time the carryover never engages, so
trust holds exactly when `now - lastVerifiedAt` is at most 24 hours. -/
theorem c5_weekend_carryover_window :
    shouldTrustDevice (some fri1800) mon0759 = true ∧
    shouldTrustDevice (some fri1800) mon0801 = false ∧
    ∀ (trusted now : Int), ¬(getDay now = 1 ∧ getHours now < 8) →
      (shouldTrustDevice (some trusted) now = true ↔ now - trusted ≤ 24 * msPerHour) := by
  refine ⟨by decide, by decide, ?_⟩
  intro t n h
  have hcar : isWeekendCarryover n = false := by
    rcases Decidable.em (getDay n = 1) with h1 | h1
    · have h2 : ¬ getHours n < 8 := fun hh => h ⟨h1, hh⟩
      simp [isWeekendCarryover, h2]
    · simp [isWeekendCarryover, h1]
  constructor
  · intro htr
    by_contra hgt
    simp [shouldTrustDevice, hcar, hgt] at htr
  · intro hle
    simp [shouldTrustDevice, hle]

/-- Claim C5 (witness): at a Thursday 10:00 current moment (not a Monday
morning), a record verified at the local epoch is trusted exactly
because ten hours is within the 24-hour window. -/
theorem c5_weekend_carryover_window_witness :
    shouldTrustDevice (some 0) (10 * msPerHour) = true ↔
      10 * msPerHour - 0 ≤ 24 * msPerHour :=
  c5_weekend_carryover_window.2.2 0 (10 * msPerHour) (by decide)

/-- Claim C8: the login-path trust update stores the new timestamp under
the device's key, overwriting any previous one (a second update leaves a
single, newest timestamp), and leaves every other key unchanged; the
enrollment-path update stores the enrolling device's timestamp and
agrees with the registration-time map (empty) on every other key. -/
theorem c8_trust_overwrite_frame (m : String → Option Int) (fp k : String) (t t2 : Int) :
    updateTrusted m fp t fp = some t ∧
    (k ≠ fp → updateTrusted m fp t k = m k) ∧
    updateTrusted (updateTrusted m fp t) fp t2 fp = some t2 ∧
    enrollTrusted fp t fp = some t ∧
    (k ≠ fp → enrollTrusted fp t k = signUpTrustedDevices k) :=
  ⟨by simp [updateTrusted], fun h => by simp [updateTrusted, h],
   by simp [updateTrusted], by simp [enrollTrusted],
   fun h => by simp [enrollTrusted, signUpTrustedDevices, h]⟩

/-- Claim C8 (witness): the conjunction at a concrete map with two
distinct device fingerprints. -/
theorem c8_trust_overwrite_frame_witness :
    updateTrusted (fun _ => some 7) "devA" 1 "devA" = some 1 ∧
    ("devB" ≠ "devA" → updateTrusted (fun _ => some 7) "devA" 1 "devB" = (fun _ => some (7 : Int)) "devB") ∧
    updateTrusted (updateTrusted (fun _ => some 7) "devA" 1) "devA" 2 "devA" = some 2 ∧
    enrollTrusted "devA" 1 "devA" = some 1 ∧
    ("devB" ≠ "devA" → enrollTrusted "devA" 1 "devB" = signUpTrustedDevices "devB") :=
  c8_trust_overwrite_frame (fun _ => some 7) "devA" "devB" 1 2

/-- Claim C9: recording trust for a device and immediately re-checking
trust for that device at the same clock reading always succeeds. -/
theorem c9_record_then_trusted (m : String → Option Int) (fp : String) (now : Int) :
    shouldTrustDevice (updateTrusted m fp now fp) now = true := by
  have h1 : updateTrusted m fp now fp = some now := by simp [updateTrusted]
  rw [h1]
  simp [shouldTrustDevice, msPerHour]

/-- Claim C6: for every secret and clock reading, the token generated
for the current time step verifies at that same moment — the middle
candidate of the drift loop matches exactly. -/
theorem c6_self_consistency (s : String) (now : Int) :
    verifyTOTP s (generateTOTPToken s (timeStepOf now)) now = true := by
  simp [verifyTOTP]

/-! Structural facts about the base64 encoding, the decimal printer and
the token, feeding claims C2, C7 and C10. -/

/-- The character list of `String.mk` is its argument. -/
theorem data_mk (l : List Char) : (String.mk l).data = l := rfl

/-- The length of `String.mk` is the length of its argument. -/
theorem length_mk (l : List Char) : (String.mk l).length = l.length := rfl

/-- String concatenation concatenates the character lists. -/
theorem data_append (a b : String) : (a ++ b).data = a.data ++ b.data := rfl

/-- Taking `n + 4` elements of a four-cons list peels the four heads. -/
theorem take_add_four (w x y z : Char) (t : List Char) (n : Nat) :
    (w :: x :: y :: z :: t).take (n + 4) = w :: x :: y :: z :: t.take n := rfl

/-- Taking `n + 3` elements of a three-cons list peels the three heads. -/
theorem take_add_three (a b c : Nat) (t : List Nat) (n : Nat) :
    (a :: b :: c :: t).take (n + 3) = a :: b :: c :: t.take n := rfl

/-- Each full 3-byte group contributes 4 output characters, and a
trailing group of 1 or 2 bytes is padded to 4, so the output length is
4 times the number of (rounded-up) 3-byte groups. -/
theorem b64encode_length : ∀ (l : List Nat), (b64encode l).length = 4 * ((l.length + 2) / 3)
  | [] => rfl
  | [_] => by simp [b64encode]
  | [_, _] => by simp [b64encode]
  | _ :: _ :: _ :: rest => by
      simp [b64encode, b64encode_length rest]
      omega

/-- The first `4 * k` characters of the encoding are the encoding of the
first `3 * k` bytes, provided the input has at least `3 * k` bytes. -/
theorem b64encode_take (k : Nat) : ∀ (l : List Nat), 3 * k ≤ l.length →
    (b64encode l).take (4 * k) = b64encode (l.take (3 * k)) := by
  induction k with
  | zero => intro l h; simp [b64encode]
  | succ k ih =>
    intro l h
    match l with
    | [] => simp at h
    | [a] => simp at h; omega
    | [a, b] => simp at h; omega
    | a :: b :: c :: rest =>
      have h3 : 3 * k ≤ rest.length := by simp at h; omega
      rw [show 4 * (k + 1) = 4 * k + 4 from by ring,
          show 3 * (k + 1) = 3 * k + 3 from by ring, take_add_three]
      simp only [b64encode]
      rw [take_add_four, ih rest h3]

/-- The 20-character hash prefix kept by `simpleHMAC` is fully
determined by the first 15 characters of `key + message`: two calls
whose keys agree on their first 15 characters (both keys at least 15
long) return the same hash, whatever the messages. -/
theorem simpleHMAC_first15 (s1 s2 m1 m2 : String)
    (h1 : 15 ≤ s1.length) (h2 : 15 ≤ s2.length)
    (hagree : s1.data.take 15 = s2.data.take 15) :
    simpleHMAC s1 m1 = simpleHMAC s2 m2 := by
  have key : ∀ (s m : String), 15 ≤ s.length →
      (b64encode (((s ++ m).data).map Char.toNat)).take 20 =
      b64encode ((s.data.take 15).map Char.toNat) := by
    intro s m hs
    have hlen : 3 * 5 ≤ (((s ++ m).data).map Char.toNat).length := by
      rw [List.length_map, data_append, List.length_append]
      have : s.length = s.data.length := rfl
      omega
    have ht := b64encode_take 5 (((s ++ m).data).map Char.toNat) hlen
    rw [show 4 * 5 = 20 from rfl] at ht
    rw [ht]
    congr 1
    rw [data_append, List.map_append, show 3 * 5 = 15 from rfl,
        List.take_append_of_le_length (by rw [List.length_map]; exact hs),
        List.map_take]
  unfold simpleHMAC
  rw [key s1 m1 h1, key s2 m2 h2, hagree]

/-- The hash has exactly 20 characters whenever the key has at least 15:
the base64 output then has at least 20 characters and `slice(0, 20)`
keeps exactly 20. -/
theorem simpleHMAC_length (key message : String) (h : 15 ≤ key.length) :
    (simpleHMAC key message).length = 20 := by
  unfold simpleHMAC
  rw [length_mk, List.length_take, b64encode_length, List.length_map,
      data_append, List.length_append]
  have : key.length = key.data.length := rfl
  omega

/-- Every digit value below ten prints as a decimal digit character. -/
theorem digitChar_isDigit : ∀ d : Nat, d < 10 → (Nat.digitChar d).isDigit = true := by
  decide

/-- With sufficient fuel, the digit expansion of `n < 10 ^ k` has at
most `k` characters, all decimal digits. -/
theorem natDigitsAux_spec : ∀ (fuel n k : Nat), n ≤ fuel → n < 10 ^ k →
    (natDigitsAux fuel n).length ≤ k ∧ ∀ c ∈ natDigitsAux fuel n, c.isDigit = true := by
  intro fuel
  induction fuel with
  | zero =>
    intro n k hn hk
    simp [natDigitsAux]
  | succ fuel ih =>
    intro n k hn hk
    by_cases h0 : n = 0
    · simp [natDigitsAux, h0]
    · have hk1 : 1 ≤ k := by
        by_contra hk0
        have hz : k = 0 := by omega
        rw [hz, pow_zero] at hk
        omega
      obtain ⟨kp, rfl⟩ : ∃ kp, k = kp + 1 := ⟨k - 1, by omega⟩
      have hdiv : n / 10 ≤ fuel := by omega
      have hlt : n / 10 < 10 ^ kp := by
        rw [pow_succ] at hk
        omega
      obtain ⟨ihlen, ihdig⟩ := ih (n / 10) kp hdiv hlt
      constructor
      · simp [natDigitsAux, h0]
        omega
      · intro c hc
        simp [natDigitsAux, h0] at hc
        rcases hc with hc | hc
        · exact ihdig c hc
        · rw [hc]
          exact digitChar_isDigit _ (Nat.mod_lt _ (by norm_num))

/-- The decimal print of a number below one million has at most six
characters, all decimal digits. -/
theorem natToString_small (n : Nat) (h : n < 1000000) :
    (natToString n).length ≤ 6 ∧ ∀ c ∈ (natToString n).data, c.isDigit = true := by
  by_cases h0 : n = 0
  · subst h0
    refine ⟨by decide, ?_⟩
    intro c hc
    simp [natToString] at hc
    rw [hc]
    decide
  · have hs := natDigitsAux_spec n n 6 (le_refl n) (by rw [show (10 : Nat) ^ 6 = 1000000 from by norm_num]; exact h)
    rw [natToString, if_neg h0]
    exact ⟨hs.1, hs.2⟩

/-- Every generated token is exactly six characters long and consists of
decimal digits, for any secret and time step: the truncated value is
reduced modulo one million before printing and padding. -/
theorem generateTOTPToken_shape (s : String) (t : Int) :
    (generateTOTPToken s t).length = 6 ∧
    ∀ c ∈ (generateTOTPToken s t).data, c.isDigit = true := by
  unfold generateTOTPToken padStart6
  have hmlt : totpCode (simpleHMAC s (intToString t)) % 1000000 < 1000000 :=
    Nat.mod_lt _ (by norm_num)
  obtain ⟨hlen, hdig⟩ := natToString_small _ hmlt
  constructor
  · rw [length_mk, List.length_append, List.length_replicate]
    have : (natToString (totpCode (simpleHMAC s (intToString t)) % 1000000)).data.length ≤ 6 := hlen
    omega
  · intro c hc
    rw [data_mk] at hc
    rcases List.mem_append.mp hc with hr | hd
    · rw [List.eq_of_mem_replicate hr]
      decide
    · exact hdig c hd

/-- A second secret of the `generateTOTPSecret` shape sharing its first
15 characters with `sampleSecret`. -/
def sampleSecretB : String := "ABCDEFGHIJKLMNO77777777777777777"

/-- Claim C2: for 32-character secrets drawn from the
`generateTOTPSecret` alphabet, the generated token is independent of the
time step and depends only on the first 15 characters of the secret:
any two such secrets agreeing on their first 15 characters produce the
same token at any two time steps, because `simpleHMAC` keeps the first
20 base64 characters of `btoa(secret + timeStep)` and those encode
exactly the first 15 bytes of the concatenation. -/
theorem c2_token_ignores_time_and_tail (s1 s2 : String) (t1 t2 : Int)
    (hl1 : s1.length = 32) (hl2 : s2.length = 32)
    (ha1 : ∀ c ∈ s1.data, c ∈ secretAlphabet) (ha2 : ∀ c ∈ s2.data, c ∈ secretAlphabet)
    (hagree : s1.data.take 15 = s2.data.take 15) :
    generateTOTPToken s1 t1 = generateTOTPToken s2 t2 := by
  unfold generateTOTPToken
  rw [simpleHMAC_first15 s1 s2 (intToString t1) (intToString t2) (by omega) (by omega) hagree]

/-- Claim C2 (witness): two secrets sharing only their first 15
characters produce the same code at time steps 0 and 999. -/
theorem c2_token_ignores_time_and_tail_witness :
    generateTOTPToken sampleSecret 0 = generateTOTPToken sampleSecretB 999 :=
  c2_token_ignores_time_and_tail sampleSecret sampleSecretB 0 999
    (by decide) (by decide) (by decide) (by decide) (by decide)

/-- Claim C7: for every 32-character secret over the
`generateTOTPSecret` alphabet and every integer time step, the token is
a 6-character decimal-digit string; moreover the truncation is sound:
the offset plus 3 stays inside the 20-character hash, and the masked
packed value stays below 2 to the 31st, hence is a non-negative JS
32-bit integer. -/
theorem c7_token_is_six_digits (s : String) (t : Int) (hl : s.length = 32)
    (ha : ∀ c ∈ s.data, c ∈ secretAlphabet) :
    (generateTOTPToken s t).length = 6 ∧
    (∀ c ∈ (generateTOTPToken s t).data, c.isDigit = true) ∧
    totpOffset (simpleHMAC s (intToString t)) + 3 <
      (simpleHMAC s (intToString t)).length ∧
    totpCode (simpleHMAC s (intToString t)) < 2 ^ 31 := by
  have hh := simpleHMAC_length s (intToString t) (by omega)
  refine ⟨(generateTOTPToken_shape s t).1, (generateTOTPToken_shape s t).2, ?_, ?_⟩
  · rw [hh]
    unfold totpOffset
    omega
  · unfold totpCode
    rw [show (2 : Nat) ^ 31 = 2147483648 from by norm_num]
    omega

/-- Claim C7 (witness): the token shape at a concrete secret and time
step. -/
theorem c7_token_is_six_digits_witness :
    (generateTOTPToken sampleSecret 12345).length = 6 ∧
    (∀ c ∈ (generateTOTPToken sampleSecret 12345).data, c.isDigit = true) ∧
    totpOffset (simpleHMAC sampleSecret (intToString 12345)) + 3 <
      (simpleHMAC sampleSecret (intToString 12345)).length ∧
    totpCode (simpleHMAC sampleSecret (intToString 12345)) < 2 ^ 31 :=
  c7_token_is_six_digits sampleSecret 12345 (by decide) (by decide)

/-- Claim C10: a submitted code of the wrong length, or containing a
non-digit character, never verifies: every generated candidate is a
6-character all-digit string, so the comparison fails at all three time
steps and `verifyTOTP` returns false as an ordinary result (the
embedding is a total function; the source path performs no throwing
operation). -/
theorem c10_malformed_code_rejected (s token : String) (now : Int)
    (h : token.length ≠ 6 ∨ ∃ c ∈ token.data, c.isDigit = false) :
    verifyTOTP s token now = false := by
  have key : ∀ tstep : Int, ¬ generateTOTPToken s tstep = token := by
    intro tstep he
    obtain ⟨hlen, hdig⟩ := generateTOTPToken_shape s tstep
    rcases h with hl | ⟨c, hc, hcd⟩
    · rw [he] at hlen
      exact hl hlen
    · rw [← he] at hc
      have hd := hdig c hc
      rw [hcd] at hd
      exact Bool.false_ne_true hd
  unfold verifyTOTP
  simp [key]

/-- Claim C10 (witness): a five-character submission is rejected. -/
theorem c10_malformed_code_rejected_witness :
    verifyTOTP sampleSecret "12345" 0 = false :=
  c10_malformed_code_rejected sampleSecret "12345" 0 (Or.inl (by decide))

end OllyTracker
